import Mathlib

/-!
Shallow embedding of `ws_sim868/modemUnit.py` (SIM868 modem driver).

Conventions of the embedding:
* machine text is `String`; the serial input is a list of raw lines, each as
  delivered by `readline` (terminator included);
* Python `int(...)` / `float(...)` are modelled by `pyInt` / `pyFloat`
  returning `Option` (`none` = `ValueError`); `float` is modelled on plain
  decimal literals (optional sign, digits, one dot), the only shape the
  device produces — no exponent / inf / nan forms;
* Python `round` is round-half-to-even, as `pyRound`;
* wall-clock reads (`time.time()`) become an explicit rational parameter
  `now`; the two consecutive reads inside `__health_check` are modelled as
  one instant;
* `GPSData.timestamp` is dynamically typed in Python (initialised to `""`,
  possibly overwritten by an `int`): it is embedded as the sum `TsVal`;
* dict-shaped records become structures, dicts become association lists;
  UUID tokens become naturals; `__http_current_uuid` holds `""`, `None`
  or a token in Python — the two non-token values are both `none` here.
-/

namespace Sim868

/-- Characters `'0'..'9'` folded into a natural number. -/
def digitsToNat (cs : List Char) : ℕ :=
  cs.foldl (fun n c => n * 10 + (c.toNat - '0'.toNat)) 0

/-- Split a character list at every character satisfying `p`, keeping
empty pieces (the list shape of Python `str.split(sep)`). -/
def splitAtPred (p : Char → Bool) : List Char → List (List Char)
  | [] => [[]]
  | d :: rest =>
    match splitAtPred p rest with
    | [] => [[d]]
    | h :: t => if p d then [] :: h :: t else (d :: h) :: t

/-- Python `s.split(c)` for a one-character separator. -/
def pySplitOnChar (s : String) (c : Char) : List String :=
  (splitAtPred (fun d => d = c) s.toList).map (fun l => ⟨l⟩)

/-- Strip leading and trailing whitespace (Python `str.strip()`). -/
def trimChars (cs : List Char) : List Char :=
  ((cs.dropWhile Char.isWhitespace).reverse.dropWhile Char.isWhitespace).reverse

/-- Python `s.startswith(pre)`. -/
def pyStartsWith (s pre : String) : Bool :=
  List.isPrefixOf pre.toList s.toList

/-- Python `s[1:]`. -/
def strTail (s : String) : String := ⟨s.toList.drop 1⟩

/-- Python `int(s)` (base 10, no underscores): strip whitespace, optional
sign, then a nonempty digit string; `none` models `ValueError`. -/
def pyInt (s : String) : Option ℤ :=
  match trimChars s.toList with
  | [] => none
  | '+' :: rest =>
      if rest.isEmpty then none
      else if rest.all Char.isDigit then some (digitsToNat rest) else none
  | '-' :: rest =>
      if rest.isEmpty then none
      else if rest.all Char.isDigit then some (-(digitsToNat rest : ℤ)) else none
  | cs =>
      if cs.all Char.isDigit then some (digitsToNat cs) else none

/-- Python `float(s)` on decimal literals, as an exact rational:
optional sign, then `d`, `d.d`, `d.` or `.d` digit shapes;
`none` models `ValueError`. -/
def pyFloat (s : String) : Option ℚ :=
  let cs := trimChars s.toList
  let sgn : ℚ := match cs with | '-' :: _ => -1 | _ => 1
  let body : List Char := match cs with
    | '-' :: rest => rest
    | '+' :: rest => rest
    | _ => cs
  match splitAtPred (fun d => d = '.') body with
  | [ip] =>
      if ip.isEmpty then none
      else if ip.all Char.isDigit then some (sgn * (digitsToNat ip : ℚ)) else none
  | [ip, fp] =>
      if ip.isEmpty ∧ fp.isEmpty then none
      else if ip.all Char.isDigit ∧ fp.all Char.isDigit then
        some (sgn * ((digitsToNat ip : ℚ) +
          (digitsToNat fp : ℚ) / (10 ^ fp.length)))
      else none
  | _ => none

/-- Python 3 `round` to an integer: nearest, ties to even. -/
def pyRound (q : ℚ) : ℤ :=
  let f := ⌊q⌋
  let r := q - f
  if r < 1/2 then f
  else if 1/2 < r then f + 1
  else if f % 2 = 0 then f else f + 1

/-- The dynamic type of `GPSData.timestamp`: the `""` default or an `int`. -/
inductive TsVal where
  | str (s : String)
  | int (n : ℤ)
deriving DecidableEq, Repr

/-- `GPSData` attributes with their `__init__` defaults
(`modemUnit.py` lines 14–31). -/
structure GPSData where
  run_status : ℤ := 0
  fix_status : ℤ := 0
  timestamp : TsVal := .str ""
  latitude : ℚ := 0
  longitude : ℚ := 0
  altitude : ℚ := 0
  speed : ℚ := 0
  course : ℚ := 0
  fix_mode : ℤ := 0
  hdop : ℚ := 0
  pdop : ℚ := 0
  vdop : ℚ := 0
  satellite_visible : ℤ := 0
  satellite_used : ℤ := 0
  glonass_visible : ℤ := 0
  cn0_max : ℚ := 0
  hpa : ℚ := 0
  vpa : ℚ := 0
deriving DecidableEq, Repr

/-- The all-defaults `GPSData` record. -/
def gpsDefault : GPSData := {}

/-- `data[k]`: `none` models `IndexError`. -/
def fieldAt (data : List String) (k : ℕ) : Option String := data.get? k

/-- One unconditional assignment `attr = int(data[k])`; on `IndexError` or
`ValueError` the partially built record is thrown (`Except.error`). -/
def reqIntField (data : List String) (k : ℕ) (g : GPSData)
    (set : GPSData → ℤ → GPSData) : Except GPSData GPSData :=
  match fieldAt data k with
  | none => .error g
  | some f =>
    match pyInt f with
    | none => .error g
    | some v => .ok (set g v)

/-- One guarded assignment `if data[k] != '': attr = conv(data[k])`:
an empty field keeps the default, a conversion failure throws. -/
def optField {α : Type} (conv : String → Option α) (data : List String) (k : ℕ)
    (g : GPSData) (set : GPSData → α → GPSData) : Except GPSData GPSData :=
  match fieldAt data k with
  | none => .error g
  | some f =>
    if f = "" then .ok g
    else
      match conv f with
      | none => .error g
      | some v => .ok (set g v)

/-- The assignment sequence of `GPSData.__init__` (lines 36–69) over the
comma-split fields; the `Bool` is true when an `IndexError`/`ValueError`
was caught by line 70, i.e. the `MalformedFixData` condition was logged. -/
def gpsParseFields (data : List String) : GPSData × Bool :=
  let r : Except GPSData GPSData := do
    let g : GPSData := {}
    let g ← reqIntField data 0 g (fun g v => {g with run_status := v})
    let g ← reqIntField data 1 g (fun g v => {g with fix_status := v})
    let g ← optField pyFloat data 2 g (fun g v => {g with timestamp := .int (pyRound v)})
    let g ← optField pyFloat data 3 g (fun g v => {g with latitude := v})
    let g ← optField pyFloat data 4 g (fun g v => {g with longitude := v})
    let g ← optField pyFloat data 5 g (fun g v => {g with altitude := v})
    let g ← optField pyFloat data 6 g (fun g v => {g with speed := v})
    let g ← optField pyFloat data 7 g (fun g v => {g with course := v})
    let g ← optField pyInt data 8 g (fun g v => {g with fix_mode := v})
    let g ← optField pyFloat data 10 g (fun g v => {g with hdop := v})
    let g ← optField pyFloat data 11 g (fun g v => {g with pdop := v})
    let g ← optField pyFloat data 12 g (fun g v => {g with vdop := v})
    let g ← optField pyInt data 14 g (fun g v => {g with satellite_visible := v})
    let g ← optField pyInt data 15 g (fun g v => {g with satellite_used := v})
    let g ← optField pyInt data 16 g (fun g v => {g with glonass_visible := v})
    let g ← optField pyFloat data 17 g (fun g v => {g with cn0_max := v})
    let g ← optField pyFloat data 18 g (fun g v => {g with hpa := v})
    let g ← optField pyFloat data 19 g (fun g v => {g with vpa := v})
    pure g
  match r with
  | .ok g => (g, false)
  | .error g => (g, true)

/-- `GPSData.__init__(cgnsinf)`: `None` keeps all defaults, otherwise the
line is split on `','` and parsed field by field. -/
def gpsdata_init (cgnsinf : Option String) : GPSData × Bool :=
  match cgnsinf with
  | none => ({}, false)
  | some s => gpsParseFields (pySplitOnChar s ',')

/-- One assignment statement of `GPSData.__init__` as a record
transformer. -/
abbrev GpsStep := GPSData → Except GPSData GPSData

/-- Run assignment statements in order, stopping at the first thrown
error (the `try` block semantics). -/
def runSteps : List GpsStep → GPSData → Except GPSData GPSData
  | [], g => .ok g
  | s :: rest, g =>
    match s g with
    | .error g' => .error g'
    | .ok g' => runSteps rest g'

/-- The record carried by either side of an `Except GPSData GPSData`. -/
def exVal : Except GPSData GPSData → GPSData
  | .ok g => g
  | .error g => g

/-- The `i`-th assignment statement of `GPSData.__init__` (positions 0–17;
fields 9 and 13 of the line are skipped by the source, so positions 9–17
read fields 10–19). -/
def gpsStep (data : List String) : ℕ → GpsStep
  | 0 => fun g => reqIntField data 0 g (fun g v => {g with run_status := v})
  | 1 => fun g => reqIntField data 1 g (fun g v => {g with fix_status := v})
  | 2 => fun g => optField pyFloat data 2 g (fun g v => {g with timestamp := .int (pyRound v)})
  | 3 => fun g => optField pyFloat data 3 g (fun g v => {g with latitude := v})
  | 4 => fun g => optField pyFloat data 4 g (fun g v => {g with longitude := v})
  | 5 => fun g => optField pyFloat data 5 g (fun g v => {g with altitude := v})
  | 6 => fun g => optField pyFloat data 6 g (fun g v => {g with speed := v})
  | 7 => fun g => optField pyFloat data 7 g (fun g v => {g with course := v})
  | 8 => fun g => optField pyInt data 8 g (fun g v => {g with fix_mode := v})
  | 9 => fun g => optField pyFloat data 10 g (fun g v => {g with hdop := v})
  | 10 => fun g => optField pyFloat data 11 g (fun g v => {g with pdop := v})
  | 11 => fun g => optField pyFloat data 12 g (fun g v => {g with vdop := v})
  | 12 => fun g => optField pyInt data 14 g (fun g v => {g with satellite_visible := v})
  | 13 => fun g => optField pyInt data 15 g (fun g v => {g with satellite_used := v})
  | 14 => fun g => optField pyInt data 16 g (fun g v => {g with glonass_visible := v})
  | 15 => fun g => optField pyFloat data 17 g (fun g v => {g with cn0_max := v})
  | 16 => fun g => optField pyFloat data 18 g (fun g v => {g with hpa := v})
  | 17 => fun g => optField pyFloat data 19 g (fun g v => {g with vpa := v})
  | _ => fun g => .ok g

/-- The assignment statements of `GPSData.__init__` in source order. -/
def gpsSteps (data : List String) : List GpsStep :=
  (List.range' 0 18).map (gpsStep data)

/-- The attribute assigned by position `p` holds its `__init__` default
(trivial beyond the last position). -/
def attrDefaultAt : ℕ → GPSData → Prop
  | 0 => fun g => g.run_status = 0
  | 1 => fun g => g.fix_status = 0
  | 2 => fun g => g.timestamp = .str ""
  | 3 => fun g => g.latitude = 0
  | 4 => fun g => g.longitude = 0
  | 5 => fun g => g.altitude = 0
  | 6 => fun g => g.speed = 0
  | 7 => fun g => g.course = 0
  | 8 => fun g => g.fix_mode = 0
  | 9 => fun g => g.hdop = 0
  | 10 => fun g => g.pdop = 0
  | 11 => fun g => g.vdop = 0
  | 12 => fun g => g.satellite_visible = 0
  | 13 => fun g => g.satellite_used = 0
  | 14 => fun g => g.glonass_visible = 0
  | 15 => fun g => g.cn0_max = 0
  | 16 => fun g => g.hpa = 0
  | 17 => fun g => g.vpa = 0
  | _ => fun _ => True

/-- Every attribute assigned at or after position `n` holds its default. -/
def DefaultsFrom (n : ℕ) (g : GPSData) : Prop :=
  ∀ j, n ≤ j → attrDefaultAt j g

/-- `g'` agrees with `g` on every attribute except possibly the one
assigned at position `i`. -/
def AgreesExcept (i : ℕ) (g g' : GPSData) : Prop :=
  (i ≠ 0 → g'.run_status = g.run_status) ∧
  (i ≠ 1 → g'.fix_status = g.fix_status) ∧
  (i ≠ 2 → g'.timestamp = g.timestamp) ∧
  (i ≠ 3 → g'.latitude = g.latitude) ∧
  (i ≠ 4 → g'.longitude = g.longitude) ∧
  (i ≠ 5 → g'.altitude = g.altitude) ∧
  (i ≠ 6 → g'.speed = g.speed) ∧
  (i ≠ 7 → g'.course = g.course) ∧
  (i ≠ 8 → g'.fix_mode = g.fix_mode) ∧
  (i ≠ 9 → g'.hdop = g.hdop) ∧
  (i ≠ 10 → g'.pdop = g.pdop) ∧
  (i ≠ 11 → g'.vdop = g.vdop) ∧
  (i ≠ 12 → g'.satellite_visible = g.satellite_visible) ∧
  (i ≠ 13 → g'.satellite_used = g.satellite_used) ∧
  (i ≠ 14 → g'.glonass_visible = g.glonass_visible) ∧
  (i ≠ 15 → g'.cn0_max = g.cn0_max) ∧
  (i ≠ 16 → g'.hpa = g.hpa) ∧
  (i ≠ 17 → g'.vpa = g.vpa)

/-- `p` occurs as a contiguous run inside `s` (Python `p in s` on lists of
characters). -/
def charsHas (p : List Char) : List Char → Bool
  | [] => p.isEmpty
  | c :: rest => List.isPrefixOf p (c :: rest) || charsHas p rest

/-- Python `pat in s` substring test. -/
def pyIn (pat s : String) : Bool := charsHas pat.toList s.toList

/-- Python `s.rstrip(c)`: drop every trailing occurrence of `c`. -/
def rstripChar (s : String) (c : Char) : String :=
  ⟨(s.toList.reverse.dropWhile (fun d => d = c)).reverse⟩

/-- Line 130: `newline.rstrip('\r').rstrip('\n').rstrip('\r')`. -/
def stripLine (raw : String) : String :=
  rstripChar (rstripChar (rstripChar raw '\r') '\n') '\r'

/-- Python `s.split()` (no separator): split on whitespace runs, dropping
empty pieces. -/
def pySplitWs (s : String) : List String :=
  ((splitAtPred Char.isWhitespace s.toList).filter (fun l => !l.isEmpty)).map
    (fun l => ⟨l⟩)

/-- An HTTP request record `{'url':…, 'method':…, 'uuid':…}`. -/
structure HttpReq where
  url : String
  method : ℤ
  uuid : ℕ
deriving DecidableEq, Repr

/-- An HTTP result record `{'cid':…, 'http_status':…, 'data_size':…,
'data':…}`; `data` is `None` until the `+HTTPREAD` payload arrives. -/
structure HttpResult where
  cid : ℤ
  http_status : ℤ
  data_size : ℤ
  dat : Option String
deriving DecidableEq, Repr

/-- `__http_result`: a dict keyed by the current-uuid value (a token, or
the non-token `""`/`None` states, both embedded as `none`), holding `None`
or a result record. -/
abbrev RMap := List (Option ℕ × Option HttpResult)

/-- Dict lookup: `none` models `KeyError` on read. -/
def rlook (m : RMap) (k : Option ℕ) : Option (Option HttpResult) :=
  (m.find? (fun p => decide (p.1 = k))).map Prod.snd

/-- Dict assignment `m[k] = v` (replace or add). -/
def rinsert (m : RMap) (k : Option ℕ) (v : Option HttpResult) : RMap :=
  (k, v) :: m.filter (fun p => !(decide (p.1 = k)))

/-- Dict `m.pop(k)`. -/
def rremove (m : RMap) (k : Option ℕ) : RMap :=
  m.filter (fun p => !(decide (p.1 = k)))

/-- `__http_request_cache` lookup. -/
def clook (c : List (ℕ × HttpReq)) (k : ℕ) : Option HttpReq :=
  (c.find? (fun p => decide (p.1 = k))).map Prod.snd

/-- `__http_request_cache[k] = v`. -/
def cinsert (c : List (ℕ × HttpReq)) (k : ℕ) (v : HttpReq) : List (ℕ × HttpReq) :=
  (k, v) :: c.filter (fun p => !(decide (p.1 = k)))

/-- `__http_request_cache.pop(k)`. -/
def cremove (c : List (ℕ × HttpReq)) (k : ℕ) : List (ℕ × HttpReq) :=
  c.filter (fun p => !(decide (p.1 = k)))

/-- The mutable fields of `ModemUnit` (lines 90–115), with their `__init__`
values as defaults; serial/GPIO handles are external and not part of the
state. -/
structure ModemState where
  write_lock : Bool := false
  command_queue : List String := []
  command_last : String := ""
  command_last_time : ℚ := 0
  last_health : ℚ := 0
  imei : Option String := none
  gnss_active : Bool := false
  gnss_pwr : Bool := false
  gnss_rate : ℕ := 0
  gnss_loc : GPSData := {}
  network_active : Bool := false
  apn_config : Option (String × String × String) := none
  http_queue : List HttpReq := []
  http_result : RMap := []
  http_in_request : Bool := false
  http_current_uuid : Option ℕ := none
  http_current_request : Option HttpReq := none
  http_request_cache : List (ℕ × HttpReq) := []
deriving DecidableEq, Repr

/-- `modem_execute(cmd)`: append to the command queue. -/
def modem_execute (m : ModemState) (cmd : String) : ModemState :=
  {m with command_queue := m.command_queue ++ [cmd]}

/-- `__modem_write(cmd)` (lines 179–189): transmit only when the write lock
is free; the `Bool` is the Python return value, true exactly when the
command went out on the serial line. -/
def modem_write (m : ModemState) (cmd : String) (now : ℚ) : ModemState × Bool :=
  if m.write_lock then (m, false)
  else ({m with write_lock := true, command_last := cmd, command_last_time := now}, true)

/-- Outcome of handling one received line inside `__process_input`'s drain
loop. -/
inductive LineOutcome : Type where
  /-- fall through: the `while self.__ser.in_waiting` loop continues -/
  | cont (m : ModemState)
  /-- a `return` statement was hit; `rest` is the unread input left over -/
  | halt (m : ModemState) (rest : List String)
  /-- the nested `+HTTPREAD` wait loop spins with no further input -/
  | blocked (m : ModemState)
  /-- an uncaught `IndexError`/`ValueError`/`KeyError`/`TypeError` -/
  | exn (m : ModemState)
deriving DecidableEq, Repr

/-- One iteration of `__process_input`'s classification chain
(lines 128–177) on the raw line `raw`, with `rest` the lines still
unread on the serial port. -/
def process_input_line (m : ModemState) (raw : String) (rest : List String)
    (now : ℚ) : LineOutcome :=
  let newline := stripLine raw
  if pyIn "OK" newline then
    .cont {m with write_lock := false, last_health := now}
  else if pyIn "ERROR" newline then
    .cont {m with write_lock := false}
  else if pyIn "+CGNSPWR" newline ∧ ¬ pyIn "AT" newline then
    match (pySplitOnChar newline ':')[1]? with
    | none => .exn m
    | some pwr => .cont {m with gnss_pwr := pyIn "1" pwr, write_lock := false}
  else if pyStartsWith newline "+UGNSINF" then
    match (pySplitOnChar newline ':')[1]? with
    | none => .exn m
    | some s => .cont {m with gnss_loc := (gpsdata_init (some (strTail s))).1}
  else if pyStartsWith newline "+HTTPACTION" then
    let m1 := {m with write_lock := false}
    match (pySplitWs newline)[1]? with
    | none => .exn m1
    | some tok =>
      let reply := pySplitOnChar tok ','
      match reply[0]?, reply[1]?, reply[2]? with
      | some r0, some r1, some r2 =>
        match pyInt r0, pyInt r1, pyInt r2 with
        | some cid, some hs, some ds =>
          let res := rinsert m1.http_result m1.http_current_uuid (some ⟨cid, hs, ds, none⟩)
          let m2 := {m1 with http_result := res}
          if ds > 0 ∧ hs = 200 then .cont (modem_execute m2 "AT+HTTPREAD")
          else .halt {m2 with http_in_request := false, http_current_uuid := none} rest
        | _, _, _ => .exn m1
      | _, _, _ => .exn m1
  else if pyStartsWith newline "+HTTPREAD" then
    match rest with
    | [] => .blocked m
    | dataline :: rest' =>
      let m1 := {m with write_lock := false}
      match rlook m1.http_result m1.http_current_uuid with
      | none => .exn m1
      | some none => .exn m1
      | some (some res) =>
        let res' := rinsert m1.http_result m1.http_current_uuid (some {res with dat := some dataline})
        .halt {m1 with http_result := res'} rest'
  else if m.command_last = "AT+GSN" ∧ newline ≠ "AT+GSN" ∧ m.imei = none then
    .halt {m with imei := some newline, write_lock := false} rest
  else .cont m

/-- Result of a whole `__process_input` call. -/
inductive DrainResult where
  | done (m : ModemState)
  | blocked (m : ModemState)
  | exn (m : ModemState)
deriving Repr

/-- `__process_input` (lines 125–177): drain the pending input lines in
arrival order until none remain or a `return` is hit. -/
def process_input (m : ModemState) (now : ℚ) : List String → DrainResult
  | [] => .done m
  | raw :: rest =>
    match process_input_line m raw rest now with
    | .cont m' => process_input m' now rest
    | .halt m' _ => .done m'
    | .blocked m' => .blocked m'
    | .exn m' => .exn m'

/-- `__bearer_setval(cid, param, val)`. -/
def bearer_setval (m : ModemState) (cid : ℕ) (param val : String) : ModemState :=
  modem_execute m ("AT+SAPBR=3," ++ toString cid ++ ",\"" ++ param ++ "\",\"" ++ val ++ "\"")

/-- `__bearer_config(apn_config)` on an `{'apn','username','password'}`
triple. -/
def bearer_config (m : ModemState) (apn user pwd : String) : ModemState :=
  bearer_setval (bearer_setval (bearer_setval m 1 "APN" apn) 1 "USER" user) 1 "PWD" pwd

/-- `__bearer_open()`. -/
def bearer_open (m : ModemState) : ModemState := modem_execute m "AT+SAPBR=1,1"

/-- `__data_open()`. -/
def data_open (m : ModemState) : ModemState :=
  modem_execute (modem_execute (modem_execute (modem_execute m
    "AT+CMEE=1") "AT+CGATT=1") "AT+CGACT=1,1") "AT+CGPADDR=1"

/-- `network_start()` = `__network_init()` then `network_active = True`.
With `apn_config = None` the Python code would raise inside
`__bearer_config`; every caller in the source guards on a set config, so
that branch is left as the identity here. -/
def network_start (m : ModemState) : ModemState :=
  match m.apn_config with
  | some (a, u, p) => {bearer_open (bearer_config (data_open m) a u p) with network_active := true}
  | none => m

/-- `gnss_start(rate)`. -/
def gnss_start (m : ModemState) (rate : ℕ) : ModemState :=
  modem_execute (modem_execute {m with gnss_active := true, gnss_rate := rate}
    "AT+CGNSPWR=1") ("AT+CGNSURC=" ++ toString rate)

/-- `__reinit()` lines 206–208: restart networking when it was active. -/
def reinit_network (m : ModemState) : ModemState :=
  if m.network_active ∧ m.apn_config ≠ none then
    network_start {m with network_active := false}
  else m

/-- `__reinit()` lines 210–211: restart GNSS at its last requested rate. -/
def reinit_gnss (m : ModemState) : ModemState :=
  if m.gnss_active ∧ m.gnss_rate ≠ 0 then gnss_start m m.gnss_rate else m

/-- `__reinit()` lines 213–214: re-query the identity when still unknown. -/
def reinit_imei (m : ModemState) : ModemState :=
  if m.imei = none then modem_execute m "AT+GSN" else m

/-- `__reinit()` (lines 205–214): replay network, GNSS and identity intent
after a power cycle. -/
def reinit (m : ModemState) : ModemState :=
  reinit_imei (reinit_gnss (reinit_network m))

/-- `power_toggle()` (lines 217–251): timestamps reset, GPIO pulse and
serial reconnect (external effects), queue and lock cleared, an in-flight
HTTP request pushed back onto the HTTP queue, then `__reinit()`.
Python appends `self.__http_current_request` even were it `None`; that
value is always a real request when `__http_in_request` holds, and the
embedding appends it only when present (`Option.toList`). -/
def power_toggle (m : ModemState) (now : ℚ) : ModemState :=
  let m1 := {m with last_health := now, command_last_time := now}
  let m2 := {m1 with write_lock := false, command_queue := []}
  let m3 :=
    if m2.http_in_request then
      {m2 with http_in_request := false, http_current_uuid := none,
               http_queue := m2.http_queue ++ m2.http_current_request.toList,
               http_current_request := none}
    else m2
  reinit m3

/-- `__health_check()` (lines 198–203); the two `time.time()` reads are the
single instant `now`. -/
def health_check (m : ModemState) (now : ℚ) : ModemState :=
  if now - m.last_health > 30 ∧ now - m.command_last_time > 30 then
    if m.write_lock then power_toggle m now
    else if ¬ m.write_lock ∧ m.command_queue.length = 0 then modem_execute m "AT"
    else m
  else m

/-- `__http_execute_next()` (lines 327–341). -/
def http_execute_next (m : ModemState) : ModemState :=
  if m.http_in_request ∨ m.http_queue.length = 0 then m
  else
    match m.http_queue with
    | [] => m
    | req :: qrest =>
      let m1 := {m with http_in_request := true, http_queue := qrest,
                        http_current_uuid := some req.uuid,
                        http_current_request := some req,
                        http_request_cache := cinsert m.http_request_cache req.uuid req}
      modem_execute (modem_execute (modem_execute (modem_execute (modem_execute m1
        "AT+HTTPTERM") "AT+HTTPINIT")
        ("AT+HTTPPARA=\"URL\",\"" ++ req.url ++ "\""))
        "AT+HTTPPARA=\"CID\",1")
        ("AT+HTTPACTION=" ++ toString req.method)

/-- The submission half of `__http_request(method, url)` (lines 357–361):
optional network start, then register the empty pending result under the
freshly drawn token `tok` (`uuid.uuid4()`) and append the request to the
HTTP queue. -/
def http_request_submit (m : ModemState) (method : ℤ) (url : String) (tok : ℕ) : ModemState :=
  let m1 := if m.network_active = false ∧ m.apn_config ≠ none then network_start m else m
  let r1 := rinsert m1.http_result (some tok) none
  {m1 with http_result := r1, http_queue := m1.http_queue ++ [⟨url, method, tok⟩]}

/-- One iteration of `__http_request`'s wait loop (lines 362–372): `none`
while the loop would keep sleeping, `some (res, m')` once the result is
complete, with both the result entry and the cache entry popped. -/
def http_request_collect (m : ModemState) (tok : ℕ) : Option (HttpResult × ModemState) :=
  match rlook m.http_result (some tok) with
  | some (some res) =>
    if (res.data_size ≠ 0 ∧ res.dat ≠ none) ∨ res.data_size = 0 then
      some (res, {m with http_result := rremove m.http_result (some tok),
                         http_request_cache := cremove m.http_request_cache tok})
    else none
  | _ => none

/-- The state right after `ModemUnit.__init__`: defaults with `AT+GSN`
queued (line 118). -/
def initState : ModemState := modem_execute {} "AT+GSN"

/-- The modem state carried by a `LineOutcome`. -/
def lineState : LineOutcome → ModemState
  | .cont m => m
  | .halt m _ => m
  | .blocked m => m
  | .exn m => m

/-- The HTTP pipeline fields a state transformer left untouched. -/
def HttpSame (m m' : ModemState) : Prop :=
  m'.http_queue = m.http_queue ∧ m'.http_in_request = m.http_in_request ∧
  m'.http_current_request = m.http_current_request ∧ m'.http_result = m.http_result

/-- Ghost count of outstanding exchanges after a step that performed no
serial write: a cleared write lock means the awaited reply arrived (rules
1–3 and 5–7 of `__process_input`) or the exchange was abandoned
(`power_toggle`), so the count drops to zero; while the lock stays held
the exchange is still pending. -/
def outstanding_after (m' : ModemState) (n : ℕ) : ℕ :=
  if m'.write_lock then n else 0

/-- One step of the session: every operation of `ModemUnit` that touches
the write lock or the queues, paired with the ghost count of commands
sent and not yet acknowledged.  The only constructor that performs a
serial write — and so can raise the count — is `write`, going through
`__modem_write` itself. -/
inductive SysStep : ModemState × ℕ → ModemState × ℕ → Prop where
  | write (m : ModemState) (n : ℕ) (cmd : String) (now : ℚ) :
      SysStep (m, n) ((modem_write m cmd now).1,
        if (modem_write m cmd now).2 then n + 1 else n)
  | line (m : ModemState) (n : ℕ) (raw : String) (rest : List String) (now : ℚ) :
      SysStep (m, n) (lineState (process_input_line m raw rest now),
        outstanding_after (lineState (process_input_line m raw rest now)) n)
  | health (m : ModemState) (n : ℕ) (now : ℚ) :
      SysStep (m, n) (health_check m now, outstanding_after (health_check m now) n)
  | toggle (m : ModemState) (n : ℕ) (now : ℚ) :
      SysStep (m, n) (power_toggle m now, outstanding_after (power_toggle m now) n)
  | execNext (m : ModemState) (n : ℕ) :
      SysStep (m, n) (http_execute_next m, outstanding_after (http_execute_next m) n)
  | execCmd (m : ModemState) (n : ℕ) (cmd : String) :
      SysStep (m, n) (modem_execute m cmd, outstanding_after (modem_execute m cmd) n)
  | submit (m : ModemState) (n : ℕ) (method : ℤ) (url : String) (tok : ℕ) :
      SysStep (m, n) (http_request_submit m method url tok,
        outstanding_after (http_request_submit m method url tok) n)
  | collect (m : ModemState) (n : ℕ) (tok : ℕ) (res : HttpResult) (m' : ModemState)
      (h : http_request_collect m tok = some (res, m')) :
      SysStep (m, n) (m', outstanding_after m' n)

/-- The coupling invariant for `SysStep`: at most one outstanding
exchange, and none while the write lock is free. -/
def OutInv (p : ModemState × ℕ) : Prop :=
  p.2 ≤ 1 ∧ (p.1.write_lock = false → p.2 = 0)

/-- States reachable from the freshly constructed `ModemUnit` by session
steps. -/
def SysReachable (p : ModemState × ℕ) : Prop :=
  Relation.ReflTransGen SysStep (initState, 0) p

/-! ## Helper lemmas -/

theorem httpSame_refl (m : ModemState) : HttpSame m m := ⟨rfl, rfl, rfl, rfl⟩

theorem httpSame_trans {a b c : ModemState} (h1 : HttpSame a b) (h2 : HttpSame b c) :
    HttpSame a c :=
  ⟨h2.1.trans h1.1, h2.2.1.trans h1.2.1, h2.2.2.1.trans h1.2.2.1, h2.2.2.2.trans h1.2.2.2⟩

theorem modem_execute_httpSame (m : ModemState) (cmd : String) :
    HttpSame m (modem_execute m cmd) := by
  simp [HttpSame, modem_execute]

theorem network_start_httpSame (m : ModemState) : HttpSame m (network_start m) := by
  unfold network_start
  cases h : m.apn_config with
  | none => exact httpSame_refl m
  | some c =>
    obtain ⟨a, u, p⟩ := c
    simp [HttpSame, bearer_open, bearer_config, bearer_setval, data_open, modem_execute]

theorem gnss_start_httpSame (m : ModemState) (r : ℕ) : HttpSame m (gnss_start m r) := by
  simp [HttpSame, gnss_start, modem_execute]

theorem reinit_network_httpSame (m : ModemState) : HttpSame m (reinit_network m) := by
  unfold reinit_network; split
  · exact httpSame_trans (by simp [HttpSame]) (network_start_httpSame _)
  · exact httpSame_refl m

theorem reinit_gnss_httpSame (m : ModemState) : HttpSame m (reinit_gnss m) := by
  unfold reinit_gnss; split
  · exact gnss_start_httpSame _ _
  · exact httpSame_refl m

theorem reinit_imei_httpSame (m : ModemState) : HttpSame m (reinit_imei m) := by
  unfold reinit_imei; split
  · exact modem_execute_httpSame _ _
  · exact httpSame_refl m

theorem reinit_httpSame (m : ModemState) : HttpSame m (reinit m) :=
  httpSame_trans (reinit_network_httpSame m)
    (httpSame_trans (reinit_gnss_httpSame _) (reinit_imei_httpSame _))

theorem rlook_rinsert (mm : RMap) (k : Option ℕ) (v : Option HttpResult) :
    rlook (rinsert mm k v) k = some v := by
  simp [rlook, rinsert, List.find?]

theorem rlook_rremove (mm : RMap) (k : Option ℕ) : rlook (rremove mm k) k = none := by
  simp only [rlook, rremove, Option.map_eq_none']
  rw [List.find?_eq_none]
  intro x hx
  simp only [List.mem_filter] at hx
  simpa using hx.2

theorem clook_cremove (c : List (ℕ × HttpReq)) (k : ℕ) : clook (cremove c k) k = none := by
  simp only [clook, cremove, Option.map_eq_none']
  rw [List.find?_eq_none]
  intro x hx
  simp only [List.mem_filter] at hx
  simpa using hx.2

theorem outstanding_after_inv (m' : ModemState) (n : ℕ) (hn : n ≤ 1) :
    OutInv (m', outstanding_after m' n) := by
  unfold OutInv outstanding_after
  constructor
  · split
    · exact hn
    · exact Nat.zero_le 1
  · intro h
    have h' : m'.write_lock = false := h
    simp only [h', Bool.false_eq_true, if_false]

theorem sysStep_inv {p q : ModemState × ℕ} (h : SysStep p q) (hp : OutInv p) : OutInv q := by
  cases h with
  | write m n cmd now =>
    by_cases hw : m.write_lock
    · simpa [modem_write, hw] using hp
    · have hn0 : n = 0 := hp.2 (by simpa using hw)
      simp [OutInv, modem_write, hw, hn0]
  | line m n raw rest now => exact outstanding_after_inv _ _ hp.1
  | health m n now => exact outstanding_after_inv _ _ hp.1
  | toggle m n now => exact outstanding_after_inv _ _ hp.1
  | execNext m n => exact outstanding_after_inv _ _ hp.1
  | execCmd m n cmd => exact outstanding_after_inv _ _ hp.1
  | submit m n method url tok => exact outstanding_after_inv _ _ hp.1
  | collect m n tok res m' hcol => exact outstanding_after_inv _ _ hp.1

theorem exVal_ok (g : GPSData) : exVal (.ok g) = g := rfl

theorem exVal_error (g : GPSData) : exVal (.error g) = g := rfl

theorem reqIntField_split (data : List String) (k : ℕ) (h : GPSData)
    (set : GPSData → ℤ → GPSData) :
    reqIntField data k h set = .error h ∨
    ∃ v, reqIntField data k h set = .ok (set h v) := by
  unfold reqIntField
  rcases hf : fieldAt data k with _ | f
  · simp [hf]
  · rcases hp : pyInt f with _ | v
    · simp [hf, hp]
    · exact Or.inr ⟨v, by simp [hf, hp]⟩

theorem optField_split {α : Type} (conv : String → Option α) (data : List String)
    (k : ℕ) (h : GPSData) (set : GPSData → α → GPSData) :
    optField conv data k h set = .error h ∨ optField conv data k h set = .ok h ∨
    ∃ v, optField conv data k h set = .ok (set h v) := by
  unfold optField
  rcases hf : fieldAt data k with _ | f
  · simp [hf]
  · by_cases hemp : f = ""
    · exact Or.inr (Or.inl (by simp [hf, hemp]))
    · rcases hc : conv f with _ | v
      · exact Or.inl (by simp [hf, hemp, hc])
      · exact Or.inr (Or.inr ⟨v, by simp [hf, hemp, hc]⟩)

theorem reqIntField_empty (data : List String) (k : ℕ) (h : GPSData)
    (set : GPSData → ℤ → GPSData) (he : fieldAt data k = some "") :
    reqIntField data k h set = .error h := by
  unfold reqIntField
  rw [he]
  rfl

theorem optField_empty {α : Type} (conv : String → Option α) (data : List String)
    (k : ℕ) (h : GPSData) (set : GPSData → α → GPSData)
    (he : fieldAt data k = some "") :
    optField conv data k h set = .ok h := by
  unfold optField
  rw [he]
  simp

theorem agrees_run_status (g : GPSData) (v : ℤ) :
    AgreesExcept 0 g {g with run_status := v} := by
  refine ⟨?_,?_,?_,?_,?_,?_,?_,?_,?_,?_,?_,?_,?_,?_,?_,?_,?_,?_⟩ <;> intro h <;>
    first | rfl | exact absurd rfl h

theorem agrees_fix_status (g : GPSData) (v : ℤ) :
    AgreesExcept 1 g {g with fix_status := v} := by
  refine ⟨?_,?_,?_,?_,?_,?_,?_,?_,?_,?_,?_,?_,?_,?_,?_,?_,?_,?_⟩ <;> intro h <;>
    first | rfl | exact absurd rfl h

theorem agrees_timestamp (g : GPSData) (v : TsVal) :
    AgreesExcept 2 g {g with timestamp := v} := by
  refine ⟨?_,?_,?_,?_,?_,?_,?_,?_,?_,?_,?_,?_,?_,?_,?_,?_,?_,?_⟩ <;> intro h <;>
    first | rfl | exact absurd rfl h

theorem agrees_latitude (g : GPSData) (v : ℚ) :
    AgreesExcept 3 g {g with latitude := v} := by
  refine ⟨?_,?_,?_,?_,?_,?_,?_,?_,?_,?_,?_,?_,?_,?_,?_,?_,?_,?_⟩ <;> intro h <;>
    first | rfl | exact absurd rfl h

theorem agrees_longitude (g : GPSData) (v : ℚ) :
    AgreesExcept 4 g {g with longitude := v} := by
  refine ⟨?_,?_,?_,?_,?_,?_,?_,?_,?_,?_,?_,?_,?_,?_,?_,?_,?_,?_⟩ <;> intro h <;>
    first | rfl | exact absurd rfl h

theorem agrees_altitude (g : GPSData) (v : ℚ) :
    AgreesExcept 5 g {g with altitude := v} := by
  refine ⟨?_,?_,?_,?_,?_,?_,?_,?_,?_,?_,?_,?_,?_,?_,?_,?_,?_,?_⟩ <;> intro h <;>
    first | rfl | exact absurd rfl h

theorem agrees_speed (g : GPSData) (v : ℚ) :
    AgreesExcept 6 g {g with speed := v} := by
  refine ⟨?_,?_,?_,?_,?_,?_,?_,?_,?_,?_,?_,?_,?_,?_,?_,?_,?_,?_⟩ <;> intro h <;>
    first | rfl | exact absurd rfl h

theorem agrees_course (g : GPSData) (v : ℚ) :
    AgreesExcept 7 g {g with course := v} := by
  refine ⟨?_,?_,?_,?_,?_,?_,?_,?_,?_,?_,?_,?_,?_,?_,?_,?_,?_,?_⟩ <;> intro h <;>
    first | rfl | exact absurd rfl h

theorem agrees_fix_mode (g : GPSData) (v : ℤ) :
    AgreesExcept 8 g {g with fix_mode := v} := by
  refine ⟨?_,?_,?_,?_,?_,?_,?_,?_,?_,?_,?_,?_,?_,?_,?_,?_,?_,?_⟩ <;> intro h <;>
    first | rfl | exact absurd rfl h

theorem agrees_hdop (g : GPSData) (v : ℚ) :
    AgreesExcept 9 g {g with hdop := v} := by
  refine ⟨?_,?_,?_,?_,?_,?_,?_,?_,?_,?_,?_,?_,?_,?_,?_,?_,?_,?_⟩ <;> intro h <;>
    first | rfl | exact absurd rfl h

theorem agrees_pdop (g : GPSData) (v : ℚ) :
    AgreesExcept 10 g {g with pdop := v} := by
  refine ⟨?_,?_,?_,?_,?_,?_,?_,?_,?_,?_,?_,?_,?_,?_,?_,?_,?_,?_⟩ <;> intro h <;>
    first | rfl | exact absurd rfl h

theorem agrees_vdop (g : GPSData) (v : ℚ) :
    AgreesExcept 11 g {g with vdop := v} := by
  refine ⟨?_,?_,?_,?_,?_,?_,?_,?_,?_,?_,?_,?_,?_,?_,?_,?_,?_,?_⟩ <;> intro h <;>
    first | rfl | exact absurd rfl h

theorem agrees_satellite_visible (g : GPSData) (v : ℤ) :
    AgreesExcept 12 g {g with satellite_visible := v} := by
  refine ⟨?_,?_,?_,?_,?_,?_,?_,?_,?_,?_,?_,?_,?_,?_,?_,?_,?_,?_⟩ <;> intro h <;>
    first | rfl | exact absurd rfl h

theorem agrees_satellite_used (g : GPSData) (v : ℤ) :
    AgreesExcept 13 g {g with satellite_used := v} := by
  refine ⟨?_,?_,?_,?_,?_,?_,?_,?_,?_,?_,?_,?_,?_,?_,?_,?_,?_,?_⟩ <;> intro h <;>
    first | rfl | exact absurd rfl h

theorem agrees_glonass_visible (g : GPSData) (v : ℤ) :
    AgreesExcept 14 g {g with glonass_visible := v} := by
  refine ⟨?_,?_,?_,?_,?_,?_,?_,?_,?_,?_,?_,?_,?_,?_,?_,?_,?_,?_⟩ <;> intro h <;>
    first | rfl | exact absurd rfl h

theorem agrees_cn0_max (g : GPSData) (v : ℚ) :
    AgreesExcept 15 g {g with cn0_max := v} := by
  refine ⟨?_,?_,?_,?_,?_,?_,?_,?_,?_,?_,?_,?_,?_,?_,?_,?_,?_,?_⟩ <;> intro h <;>
    first | rfl | exact absurd rfl h

theorem agrees_hpa (g : GPSData) (v : ℚ) :
    AgreesExcept 16 g {g with hpa := v} := by
  refine ⟨?_,?_,?_,?_,?_,?_,?_,?_,?_,?_,?_,?_,?_,?_,?_,?_,?_,?_⟩ <;> intro h <;>
    first | rfl | exact absurd rfl h

theorem agrees_vpa (g : GPSData) (v : ℚ) :
    AgreesExcept 17 g {g with vpa := v} := by
  refine ⟨?_,?_,?_,?_,?_,?_,?_,?_,?_,?_,?_,?_,?_,?_,?_,?_,?_,?_⟩ <;> intro h <;>
    first | rfl | exact absurd rfl h

theorem attrDefaultAt_congr (i j : ℕ) (hij : i ≠ j) (g g' : GPSData)
    (ha : AgreesExcept i g g') (hd : attrDefaultAt j g) : attrDefaultAt j g' := by
  by_cases hj : j < 18
  · obtain ⟨a0, a1, a2, a3, a4, a5, a6, a7, a8, a9, a10, a11, a12, a13, a14, a15, a16, a17⟩ := ha
    interval_cases j <;> simp only [attrDefaultAt] at hd ⊢ <;>
      first
        | (rw [a0 hij]; exact hd)
        | (rw [a1 hij]; exact hd)
        | (rw [a2 hij]; exact hd)
        | (rw [a3 hij]; exact hd)
        | (rw [a4 hij]; exact hd)
        | (rw [a5 hij]; exact hd)
        | (rw [a6 hij]; exact hd)
        | (rw [a7 hij]; exact hd)
        | (rw [a8 hij]; exact hd)
        | (rw [a9 hij]; exact hd)
        | (rw [a10 hij]; exact hd)
        | (rw [a11 hij]; exact hd)
        | (rw [a12 hij]; exact hd)
        | (rw [a13 hij]; exact hd)
        | (rw [a14 hij]; exact hd)
        | (rw [a15 hij]; exact hd)
        | (rw [a16 hij]; exact hd)
        | (rw [a17 hij]; exact hd)
  · obtain ⟨k, rfl⟩ : ∃ k, j = k + 18 := ⟨j - 18, by omega⟩
    exact trivial

theorem reqIntField_attr_preserved (data : List String) (k i j : ℕ) (hij : i ≠ j)
    (g : GPSData) (set : GPSData → ℤ → GPSData)
    (hset : ∀ v, AgreesExcept i g (set g v)) (hd : attrDefaultAt j g) :
    attrDefaultAt j (exVal (reqIntField data k g set)) := by
  rcases reqIntField_split data k g set with he | ⟨v, he⟩ <;> rw [he]
  · exact hd
  · exact attrDefaultAt_congr i j hij g _ (hset v) hd

theorem optField_attr_preserved {α : Type} (conv : String → Option α)
    (data : List String) (k i j : ℕ) (hij : i ≠ j)
    (g : GPSData) (set : GPSData → α → GPSData)
    (hset : ∀ v, AgreesExcept i g (set g v)) (hd : attrDefaultAt j g) :
    attrDefaultAt j (exVal (optField conv data k g set)) := by
  rcases optField_split conv data k g set with he | he | ⟨v, he⟩ <;> rw [he]
  · exact hd
  · exact hd
  · exact attrDefaultAt_congr i j hij g _ (hset v) hd

theorem gpsStep_attr_preserved (data : List String) (i j : ℕ) (hij : i ≠ j)
    (g : GPSData) (hd : attrDefaultAt j g) :
    attrDefaultAt j (exVal (gpsStep data i g)) := by
  by_cases hi : i < 18
  · interval_cases i <;> simp only [gpsStep] <;>
      first
        | exact reqIntField_attr_preserved data _ _ j hij g _ (fun v => agrees_run_status g v) hd
        | exact reqIntField_attr_preserved data _ _ j hij g _ (fun v => agrees_fix_status g v) hd
        | exact optField_attr_preserved _ data _ _ j hij g _ (fun v => agrees_timestamp g (.int (pyRound v))) hd
        | exact optField_attr_preserved _ data _ _ j hij g _ (fun v => agrees_latitude g v) hd
        | exact optField_attr_preserved _ data _ _ j hij g _ (fun v => agrees_longitude g v) hd
        | exact optField_attr_preserved _ data _ _ j hij g _ (fun v => agrees_altitude g v) hd
        | exact optField_attr_preserved _ data _ _ j hij g _ (fun v => agrees_speed g v) hd
        | exact optField_attr_preserved _ data _ _ j hij g _ (fun v => agrees_course g v) hd
        | exact optField_attr_preserved _ data _ _ j hij g _ (fun v => agrees_fix_mode g v) hd
        | exact optField_attr_preserved _ data _ _ j hij g _ (fun v => agrees_hdop g v) hd
        | exact optField_attr_preserved _ data _ _ j hij g _ (fun v => agrees_pdop g v) hd
        | exact optField_attr_preserved _ data _ _ j hij g _ (fun v => agrees_vdop g v) hd
        | exact optField_attr_preserved _ data _ _ j hij g _ (fun v => agrees_satellite_visible g v) hd
        | exact optField_attr_preserved _ data _ _ j hij g _ (fun v => agrees_satellite_used g v) hd
        | exact optField_attr_preserved _ data _ _ j hij g _ (fun v => agrees_glonass_visible g v) hd
        | exact optField_attr_preserved _ data _ _ j hij g _ (fun v => agrees_cn0_max g v) hd
        | exact optField_attr_preserved _ data _ _ j hij g _ (fun v => agrees_hpa g v) hd
        | exact optField_attr_preserved _ data _ _ j hij g _ (fun v => agrees_vpa g v) hd
  · obtain ⟨k, rfl⟩ : ∃ k, i = k + 18 := ⟨i - 18, by omega⟩
    exact hd

theorem attrDefaultAt_default (p : ℕ) : attrDefaultAt p ({} : GPSData) := by
  by_cases hp : p < 18
  · interval_cases p <;> simp [attrDefaultAt]
  · obtain ⟨k, rfl⟩ : ∃ k, p = k + 18 := ⟨p - 18, by omega⟩
    exact trivial


/-! ### Step decomposition of the GPS parse (for C6 and C10) -/

set_option maxHeartbeats 2000000 in
/-- `gpsParseFields` is exactly the order-preserving, stop-at-first-error
run of the 18 assignment statements. -/
theorem gpsParseFields_eq_runSteps (data : List String) :
    gpsParseFields data =
      (match runSteps (gpsSteps data) {} with
        | .ok g => (g, false)
        | .error g => (g, true)) := by
  unfold gpsParseFields gpsSteps
  dsimp only
  simp only [List.range', List.map, runSteps, gpsStep]
  cases h0 : reqIntField data 0 ({} : GPSData) (fun g v => {g with run_status := v}) with
  | error g => simp [Bind.bind, Except.bind]
  | ok g1 =>
    dsimp only [Bind.bind, Except.bind]
    cases h1 : reqIntField data 1 g1 (fun g v => {g with fix_status := v}) with
    | error g => simp [Bind.bind, Except.bind]
    | ok g2 =>
      dsimp only [Bind.bind, Except.bind]
      cases h2 : optField pyFloat data 2 g2 (fun g v => {g with timestamp := .int (pyRound v)}) with
      | error g => simp [Bind.bind, Except.bind]
      | ok g3 =>
        dsimp only [Bind.bind, Except.bind]
        cases h3 : optField pyFloat data 3 g3 (fun g v => {g with latitude := v}) with
        | error g => simp [Bind.bind, Except.bind]
        | ok g4 =>
          dsimp only [Bind.bind, Except.bind]
          cases h4 : optField pyFloat data 4 g4 (fun g v => {g with longitude := v}) with
          | error g => simp [Bind.bind, Except.bind]
          | ok g5 =>
            dsimp only [Bind.bind, Except.bind]
            cases h5 : optField pyFloat data 5 g5 (fun g v => {g with altitude := v}) with
            | error g => simp [Bind.bind, Except.bind]
            | ok g6 =>
              dsimp only [Bind.bind, Except.bind]
              cases h6 : optField pyFloat data 6 g6 (fun g v => {g with speed := v}) with
              | error g => simp [Bind.bind, Except.bind]
              | ok g7 =>
                dsimp only [Bind.bind, Except.bind]
                cases h7 : optField pyFloat data 7 g7 (fun g v => {g with course := v}) with
                | error g => simp [Bind.bind, Except.bind]
                | ok g8 =>
                  dsimp only [Bind.bind, Except.bind]
                  cases h8 : optField pyInt data 8 g8 (fun g v => {g with fix_mode := v}) with
                  | error g => simp [Bind.bind, Except.bind]
                  | ok g9 =>
                    dsimp only [Bind.bind, Except.bind]
                    cases h9 : optField pyFloat data 10 g9 (fun g v => {g with hdop := v}) with
                    | error g => simp [Bind.bind, Except.bind]
                    | ok g10 =>
                      dsimp only [Bind.bind, Except.bind]
                      cases h10 : optField pyFloat data 11 g10 (fun g v => {g with pdop := v}) with
                      | error g => simp [Bind.bind, Except.bind]
                      | ok g11 =>
                        dsimp only [Bind.bind, Except.bind]
                        cases h11 : optField pyFloat data 12 g11 (fun g v => {g with vdop := v}) with
                        | error g => simp [Bind.bind, Except.bind]
                        | ok g12 =>
                          dsimp only [Bind.bind, Except.bind]
                          cases h12 : optField pyInt data 14 g12 (fun g v => {g with satellite_visible := v}) with
                          | error g => simp [Bind.bind, Except.bind]
                          | ok g13 =>
                            dsimp only [Bind.bind, Except.bind]
                            cases h13 : optField pyInt data 15 g13 (fun g v => {g with satellite_used := v}) with
                            | error g => simp [Bind.bind, Except.bind]
                            | ok g14 =>
                              dsimp only [Bind.bind, Except.bind]
                              cases h14 : optField pyInt data 16 g14 (fun g v => {g with glonass_visible := v}) with
                              | error g => simp [Bind.bind, Except.bind]
                              | ok g15 =>
                                dsimp only [Bind.bind, Except.bind]
                                cases h15 : optField pyFloat data 17 g15 (fun g v => {g with cn0_max := v}) with
                                | error g => simp [Bind.bind, Except.bind]
                                | ok g16 =>
                                  dsimp only [Bind.bind, Except.bind]
                                  cases h16 : optField pyFloat data 18 g16 (fun g v => {g with hpa := v}) with
                                  | error g => simp [Bind.bind, Except.bind]
                                  | ok g17 =>
                                    dsimp only [Bind.bind, Except.bind]
                                    cases h17 : optField pyFloat data 19 g17 (fun g v => {g with vpa := v}) with
                                    | error g => simp [Bind.bind, Except.bind]
                                    | ok g18 =>
                                      dsimp only [Bind.bind, Except.bind]
                                      rfl

theorem gpsParseFields_fst (data : List String) :
    (gpsParseFields data).1 = exVal (runSteps (gpsSteps data) {}) := by
  rw [gpsParseFields_eq_runSteps]
  cases runSteps (gpsSteps data) {} <;> rfl

theorem runSteps_range'_attr_default (data : List String) (p : ℕ)
    (hp : ∀ g : GPSData, attrDefaultAt p g → attrDefaultAt p (exVal (gpsStep data p g))) :
    ∀ (len start : ℕ) (g : GPSData), attrDefaultAt p g →
      attrDefaultAt p (exVal (runSteps ((List.range' start len).map (gpsStep data)) g)) := by
  intro len
  induction len with
  | zero => intro start g hg; exact hg
  | succ n ih =>
    intro start g hg
    have hstep : attrDefaultAt p (exVal (gpsStep data start g)) := by
      by_cases hsp : start = p
      · exact hsp ▸ hp g hg
      · exact gpsStep_attr_preserved data start p hsp g hg
    simp only [List.range', List.map, runSteps]
    cases hs : gpsStep data start g with
    | error g' => rw [hs] at hstep; exact hstep
    | ok g' =>
      rw [hs] at hstep
      exact ih (start + 1) g' hstep

theorem runSteps_range'_defaults (data : List String) :
    ∀ (len start : ℕ) (g : GPSData), DefaultsFrom start g →
      DefaultsFrom (start + len) (exVal (runSteps ((List.range' start len).map (gpsStep data)) g)) := by
  intro len
  induction len with
  | zero => intro start g hg j hj; exact hg j (by omega)
  | succ n ih =>
    intro start g hg
    have hstep : DefaultsFrom (start + 1) (exVal (gpsStep data start g)) := by
      intro j hj
      exact gpsStep_attr_preserved data start j (by omega) g (hg j (by omega))
    simp only [List.range', List.map, runSteps]
    cases hs : gpsStep data start g with
    | error g' =>
      rw [hs] at hstep
      intro j hj
      exact hstep j (by omega)
    | ok g' =>
      rw [hs] at hstep
      intro j hj
      exact ih (start + 1) g' hstep j (by omega)

theorem parse_attr_default (data : List String) (p : ℕ)
    (hp : ∀ g : GPSData, attrDefaultAt p g → attrDefaultAt p (exVal (gpsStep data p g))) :
    attrDefaultAt p (gpsParseFields data).1 := by
  rw [gpsParseFields_fst]
  exact runSteps_range'_attr_default data p hp 18 0 {} (attrDefaultAt_default p)

theorem gpsStep_error_echo (data : List String) (i : ℕ) (g h : GPSData)
    (he : gpsStep data i g = .error h) : h = g := by
  by_cases hi : i < 18
  · interval_cases i <;> simp only [gpsStep] at he <;>
      first
      | (rcases reqIntField_split data _ g _ with h' | ⟨v, h'⟩ <;> rw [h'] at he <;>
          simp_all)
      | (rcases optField_split _ data _ g _ with h' | h' | ⟨v, h'⟩ <;> rw [h'] at he <;>
          simp_all)
  · obtain ⟨k, rfl⟩ : ∃ k, i = k + 18 := ⟨i - 18, by omega⟩
    simp [gpsStep] at he

theorem runSteps_error_split (L : List GpsStep) :
    ∀ (g0 gf : GPSData), runSteps L g0 = .error gf →
    ∃ pre s suf g', L = pre ++ s :: suf ∧ runSteps pre g0 = .ok g' ∧ s g' = .error gf := by
  induction L with
  | nil => intro g0 gf h; simp [runSteps] at h
  | cons s L' ih =>
    intro g0 gf h
    simp only [runSteps] at h
    cases hs : s g0 with
    | error g1 =>
      simp only [hs] at h
      refine ⟨[], s, L', g0, rfl, rfl, ?_⟩
      rw [hs, h]
    | ok g1 =>
      simp only [hs] at h
      obtain ⟨pre, s', suf, g', hsplit, hpre, hfail⟩ := ih g1 gf h
      exact ⟨s :: pre, s', suf, g', by simp [hsplit], by simp [runSteps, hs, hpre], hfail⟩

/-! ## Claims -/

/-- C1 (counterexample): feeding the malformed positioning line
`+UGNSINF: x` to a session whose stored fix has `run_status = 1` logs the
`MalformedFixData` condition (flag true) and yet REPLACES the stored fix
with the freshly built default record — the previously stored snapshot is
not left unchanged, contradicting the claim. -/
theorem c1_prev_fix_replaced_counterexample :
    (gpsdata_init (some "x")).2 = true ∧
    process_input_line ({gnss_loc := {run_status := 1}} : ModemState)
        "+UGNSINF: x\r\n" [] 0 =
      .cont {({gnss_loc := {run_status := 1}} : ModemState) with gnss_loc := {}} ∧
    ({run_status := 1} : GPSData) ≠ ({} : GPSData) := by
  refine ⟨by decide, by decide, by decide⟩

/-- C1 (amended): a positioning line whose payload has a missing or
non-numeric field is absorbed — the dispatcher returns normally
(`.cont`, no exception reaches the caller) with the `MalformedFixData`
condition logged by the constructor (`(gpsdata_init _).2 = true`) — but
the session's stored fix snapshot is REPLACED by the new
partially-populated record `(gpsdata_init _).1`, everything else in the
state unchanged; it is not left as the previous snapshot. -/
theorem c1_malformed_fix_absorbed_and_replaced (m : ModemState) (raw : String)
    (rest : List String) (now : ℚ) (l : String) (hl : stripLine raw = l)
    (hok : pyIn "OK" l = false) (herr : pyIn "ERROR" l = false)
    (hpwr : pyIn "+CGNSPWR" l = false)
    (hpre : pyStartsWith l "+UGNSINF" = true)
    (s : String) (hs : (pySplitOnChar l ':')[1]? = some s)
    (hbad : (gpsdata_init (some (strTail s))).2 = true) :
    process_input_line m raw rest now =
      .cont {m with gnss_loc := (gpsdata_init (some (strTail s))).1} := by
  simp [process_input_line, hl, hok, herr, hpwr, hpre, hs]

/-- C1 witness: the amended theorem applied to the malformed line
`+UGNSINF: x` on the default state. -/
theorem c1_malformed_fix_witness :
    process_input_line {} "+UGNSINF: x\r\n" [] 0 =
      .cont {({} : ModemState) with gnss_loc := (gpsdata_init (some (strTail " x"))).1} :=
  c1_malformed_fix_absorbed_and_replaced {} "+UGNSINF: x\r\n" [] 0 "+UGNSINF: x"
    (by decide) (by decide) (by decide) (by decide) (by decide) " x" (by decide) (by decide)

/-- C2 (counterexample): a power cycle with request `a` in flight and
request `b` already pending puts `a` at the TAIL of the pending HTTP
queue (`[b, a]`), not at its head, contradicting the claim's "requeued at
the head". -/
theorem c2_requeue_at_head_counterexample :
    (power_toggle ({http_in_request := true, imei := some "i", http_current_request := some ⟨"a", 0, 5⟩, http_queue := [⟨"b", 0, 9⟩]} : ModemState) 5).http_queue =
      [⟨"b", 0, 9⟩, ⟨"a", 0, 5⟩] ∧
    (power_toggle ({http_in_request := true, imei := some "i", http_current_request := some ⟨"a", 0, 5⟩, http_queue := [⟨"b", 0, 9⟩]} : ModemState) 5).http_queue.head? ≠
      some ⟨"a", 0, 5⟩ := by
  refine ⟨by decide, by decide⟩

/-- C2 (amended): a power cycle triggered while an HTTP request is in
flight appends that same request at the TAIL of the pending HTTP queue
(behind any requests queued meanwhile), marks the pipeline idle and
clears the current request, and the request's multiplicity in the queue
grows by exactly one — it is neither lost nor duplicated, and is retried
after recovery once the earlier queue entries have run. -/
theorem c2_inflight_requeued_at_tail (m : ModemState) (now : ℚ) (r : HttpReq)
    (hin : m.http_in_request = true) (hr : m.http_current_request = some r) :
    (power_toggle m now).http_queue = m.http_queue ++ [r] ∧
    (power_toggle m now).http_in_request = false ∧
    (power_toggle m now).http_current_request = none ∧
    (power_toggle m now).http_queue.count r = m.http_queue.count r + 1 := by
  have hpt : power_toggle m now = reinit
      {m with last_health := now, command_last_time := now,
              write_lock := false, command_queue := [],
              http_in_request := false, http_current_uuid := none,
              http_queue := m.http_queue ++ m.http_current_request.toList,
              http_current_request := none} := by
    simp [power_toggle, hin]
  obtain ⟨hq, hi, hc, -⟩ := reinit_httpSame
      {m with last_health := now, command_last_time := now,
              write_lock := false, command_queue := [],
              http_in_request := false, http_current_uuid := none,
              http_queue := m.http_queue ++ m.http_current_request.toList,
              http_current_request := none}
  rw [hpt, hq, hi, hc]
  simp [hr, List.count_append]

/-- C2 witness: the amended theorem applied to a concrete in-flight
request on an otherwise empty queue. -/
theorem c2_inflight_requeued_witness :
    (power_toggle ({http_in_request := true, imei := some "i", http_current_request := some ⟨"u", 0, 5⟩} : ModemState) 5).http_queue =
      [] ++ [⟨"u", 0, 5⟩] :=
  (c2_inflight_requeued_at_tail
    ({http_in_request := true, imei := some "i", http_current_request := some ⟨"u", 0, 5⟩} : ModemState) 5
    ⟨"u", 0, 5⟩ (by decide) (by decide)).1

/-- C3 (confirmed): in every session state reachable from the freshly
constructed `ModemUnit`, the ghost count of outstanding exchanges is 0 or
1, never more; and `__modem_write` transmits only when the write-lock
flag is false, setting it true upon transmitting. -/
theorem c3_at_most_one_outstanding (p : ModemState × ℕ) (h : SysReachable p) :
    p.2 ≤ 1 ∧
    ∀ (m : ModemState) (cmd : String) (now : ℚ), (modem_write m cmd now).2 = true →
      m.write_lock = false ∧ (modem_write m cmd now).1.write_lock = true := by
  have hinv : OutInv p := by
    induction h with
    | refl => exact ⟨Nat.zero_le 1, fun _ => rfl⟩
    | tail h1 h2 ih => exact sysStep_inv h2 ih
  refine ⟨hinv.1, ?_⟩
  intro m cmd now hsent
  by_cases hw : m.write_lock
  · simp [modem_write, hw] at hsent
  · exact ⟨by simpa using hw, by simp [modem_write, hw]⟩

/-- C3 witness: the invariant holds at the initial state. -/
theorem c3_at_most_one_outstanding_witness :
    ((initState, 0) : ModemState × ℕ).2 ≤ 1 :=
  (c3_at_most_one_outstanding (initState, 0) Relation.ReflTransGen.refl).1

/-- C4 (confirmed): `__health_check` does nothing unless both the time
since the last successful acknowledgment and the time since the last
command exceed 30 seconds; in that case, with an exchange outstanding it
is exactly `power_toggle`, with no exchange outstanding and an empty
command queue it enqueues exactly the single liveness probe `"AT"` and
changes nothing else, and with a non-empty queue it does nothing. -/
theorem c4_health_check_fires (m : ModemState) (now : ℚ) :
    (¬(now - m.last_health > 30 ∧ now - m.command_last_time > 30) →
      health_check m now = m) ∧
    ((now - m.last_health > 30 ∧ now - m.command_last_time > 30) → m.write_lock = true →
      health_check m now = power_toggle m now) ∧
    ((now - m.last_health > 30 ∧ now - m.command_last_time > 30) → m.write_lock = false →
      m.command_queue = [] → health_check m now = {m with command_queue := ["AT"]}) ∧
    ((now - m.last_health > 30 ∧ now - m.command_last_time > 30) → m.write_lock = false →
      m.command_queue ≠ [] → health_check m now = m) := by
  refine ⟨?_, ?_, ?_, ?_⟩
  · intro h; simp [health_check, h]
  · intro h hw; simp [health_check, h, hw]
  · intro h hw hq; simp [health_check, h, hw, hq, modem_execute]
  · intro h hw hq
    simp [health_check, h, hw, List.length_eq_zero, hq]

/-- C4 witness: 100 seconds of silence on an idle default state enqueues
the single probe. -/
theorem c4_health_check_witness :
    health_check ({imei := some "i"} : ModemState) 100 =
      {({imei := some "i"} : ModemState) with command_queue := ["AT"]} :=
  (c4_health_check_fires ({imei := some "i"} : ModemState) 100).2.2.1
    (by constructor <;> norm_num) (by decide) (by decide)

/-- C5 (confirmed): on a line starting with the `+HTTPACTION` tag the
dispatcher clears the write lock, parses connection id, HTTP status and
declared size, and stores a fresh result record (payload `none`) under
the current request's token; it enqueues the HTTP data fetch
(`AT+HTTPREAD`) if and only if `size > 0 ∧ status = 200`, and otherwise
returns immediately with the pipeline marked idle and the current token
cleared. -/
theorem c5_httpaction_dispatch (m : ModemState) (raw : String) (rest : List String)
    (now : ℚ) (l t1 r0 r1 r2 : String) (cid hs ds : ℤ)
    (hl : stripLine raw = l)
    (hok : pyIn "OK" l = false) (herr : pyIn "ERROR" l = false)
    (hpwr : pyIn "+CGNSPWR" l = false)
    (hug : pyStartsWith l "+UGNSINF" = false)
    (hpre : pyStartsWith l "+HTTPACTION" = true)
    (ht : (pySplitWs l)[1]? = some t1)
    (h0 : (pySplitOnChar t1 ',')[0]? = some r0)
    (h1 : (pySplitOnChar t1 ',')[1]? = some r1)
    (h2 : (pySplitOnChar t1 ',')[2]? = some r2)
    (hc : pyInt r0 = some cid) (hh : pyInt r1 = some hs) (hd : pyInt r2 = some ds) :
    (ds > 0 ∧ hs = 200 →
      process_input_line m raw rest now =
        .cont {m with write_lock := false,
                      http_result := rinsert m.http_result m.http_current_uuid
                        (some ⟨cid, hs, ds, none⟩),
                      command_queue := m.command_queue ++ ["AT+HTTPREAD"]}) ∧
    (¬(ds > 0 ∧ hs = 200) →
      process_input_line m raw rest now =
        .halt {m with write_lock := false,
                      http_result := rinsert m.http_result m.http_current_uuid
                        (some ⟨cid, hs, ds, none⟩),
                      http_in_request := false, http_current_uuid := none} rest) := by
  constructor
  · intro hcase
    simp [process_input_line, hl, hok, herr, hpwr, hug, hpre, ht, h0, h1, h2,
      hc, hh, hd, hcase, modem_execute]
  · intro hcase
    simp [process_input_line, hl, hok, herr, hpwr, hug, hpre, ht, h0, h1, h2,
      hc, hh, hd, hcase, modem_execute]

/-- C5 witness: `+HTTPACTION: 0,200,17` on a session whose current token
is 1 stores the fresh result and enqueues the data fetch. -/
theorem c5_httpaction_witness :
    process_input_line ({http_in_request := true, http_current_uuid := some 1, imei := some "i"} : ModemState) "+HTTPACTION: 0,200,17\r\n" [] 7 =
      .cont {({http_in_request := true, http_current_uuid := some 1, imei := some "i"} : ModemState) with write_lock := false, http_result := rinsert [] (some 1) (some ⟨0, 200, 17, none⟩), command_queue := [] ++ ["AT+HTTPREAD"]} :=
  (c5_httpaction_dispatch ({http_in_request := true, http_current_uuid := some 1, imei := some "i"} : ModemState) "+HTTPACTION: 0,200,17\r\n" [] 7
    "+HTTPACTION: 0,200,17" "0,200,17" "0" "200" "17" 0 200 17
    (by decide) (by decide) (by decide) (by decide) (by decide) (by decide)
    (by decide) (by decide) (by decide) (by decide) (by decide) (by decide)
    (by decide)).1 (by norm_num)

/-- C6 (counterexample): in the 20-field line `1,1,,…,` whose timestamp
field (index 2) is empty, the parse succeeds without error and leaves
`timestamp` at its default — the empty string — which is not the integer
0, contradicting the claim's "absent timestamp leaves timestamp equal to
0". -/
theorem c6_timestamp_default_counterexample :
    (gpsdata_init (some "1,1,,,,,,,,,,,,,,,,,,")).2 = false ∧
    (gpsdata_init (some "1,1,,,,,,,,,,,,,,,,,,")).1.timestamp = TsVal.str "" ∧
    TsVal.str "" ≠ TsVal.int 0 := by
  refine ⟨by decide, by decide, by decide⟩

/-- C6 (amended): for every field of the 20-field positioning line with
index 2–19 — in any line, however the other fields are populated — an
empty-string field leaves the attribute it maps to at its `__init__`
default; the absent-timestamp default is the EMPTY STRING, not the
integer 0; and an empty field at index 0 or 1 makes `int('')` raise,
aborting the parse with the `MalformedFixData` condition: an empty
index-0 field yields exactly the all-defaults record, and an empty
index-1 field yields a record in which every attribute except possibly
`run_status` is at its default, both flagged malformed. -/
theorem c6_empty_fields_keep_defaults (data : List String) :
    (fieldAt data 0 = some "" → gpsParseFields data = ({}, true)) ∧
    (fieldAt data 1 = some "" → (gpsParseFields data).2 = true ∧
      (gpsParseFields data).1 = {run_status := (gpsParseFields data).1.run_status}) ∧
    (fieldAt data 2 = some "" → (gpsParseFields data).1.timestamp = TsVal.str "") ∧
    (fieldAt data 3 = some "" → (gpsParseFields data).1.latitude = 0) ∧
    (fieldAt data 4 = some "" → (gpsParseFields data).1.longitude = 0) ∧
    (fieldAt data 5 = some "" → (gpsParseFields data).1.altitude = 0) ∧
    (fieldAt data 6 = some "" → (gpsParseFields data).1.speed = 0) ∧
    (fieldAt data 7 = some "" → (gpsParseFields data).1.course = 0) ∧
    (fieldAt data 8 = some "" → (gpsParseFields data).1.fix_mode = 0) ∧
    (fieldAt data 10 = some "" → (gpsParseFields data).1.hdop = 0) ∧
    (fieldAt data 11 = some "" → (gpsParseFields data).1.pdop = 0) ∧
    (fieldAt data 12 = some "" → (gpsParseFields data).1.vdop = 0) ∧
    (fieldAt data 14 = some "" → (gpsParseFields data).1.satellite_visible = 0) ∧
    (fieldAt data 15 = some "" → (gpsParseFields data).1.satellite_used = 0) ∧
    (fieldAt data 16 = some "" → (gpsParseFields data).1.glonass_visible = 0) ∧
    (fieldAt data 17 = some "" → (gpsParseFields data).1.cn0_max = 0) ∧
    (fieldAt data 18 = some "" → (gpsParseFields data).1.hpa = 0) ∧
    (fieldAt data 19 = some "" → (gpsParseFields data).1.vpa = 0) := by
  refine ⟨?_, ?_, ?_, ?_, ?_, ?_, ?_, ?_, ?_, ?_, ?_, ?_, ?_, ?_, ?_, ?_, ?_, ?_⟩
  · intro hemp
    have h0 : gpsStep data 0 ({} : GPSData) = .error {} := by
      simp only [gpsStep]
      exact reqIntField_empty data 0 {} _ hemp
    have hsteps : gpsSteps data = gpsStep data 0 :: (List.range' 1 17).map (gpsStep data) := rfl
    rw [gpsParseFields_eq_runSteps, hsteps]
    simp [runSteps, h0]
  · intro hemp
    have h1 : ∀ g : GPSData, gpsStep data 1 g = .error g := fun g => by
      simp only [gpsStep]
      exact reqIntField_empty data 1 g _ hemp
    have hsteps : gpsSteps data = gpsStep data 0 :: gpsStep data 1 ::
        (List.range' 2 16).map (gpsStep data) := rfl
    have key : ∃ a : ℤ, gpsParseFields data = ({run_status := a}, true) := by
      rcases reqIntField_split data 0 ({} : GPSData)
          (fun g v => {g with run_status := v}) with h0 | ⟨v, h0⟩
      · refine ⟨0, ?_⟩
        have h0' : gpsStep data 0 ({} : GPSData) = .error {} := by
          simp only [gpsStep]; rw [h0]
        rw [gpsParseFields_eq_runSteps, hsteps]
        simp [runSteps, h0']
      · refine ⟨v, ?_⟩
        have h0' : gpsStep data 0 ({} : GPSData) = .ok {run_status := v} := by
          simp only [gpsStep]; rw [h0]
        rw [gpsParseFields_eq_runSteps, hsteps]
        simp [runSteps, h0', h1]
    obtain ⟨a, ha⟩ := key
    rw [ha]
    exact ⟨rfl, rfl⟩
  · intro hemp
    have h := parse_attr_default data 2 (fun g hg => by
      simp only [gpsStep]
      rw [optField_empty pyFloat data 2 g _ hemp]
      exact hg)
    simpa [attrDefaultAt] using h
  · intro hemp
    have h := parse_attr_default data 3 (fun g hg => by
      simp only [gpsStep]
      rw [optField_empty pyFloat data 3 g _ hemp]
      exact hg)
    simpa [attrDefaultAt] using h
  · intro hemp
    have h := parse_attr_default data 4 (fun g hg => by
      simp only [gpsStep]
      rw [optField_empty pyFloat data 4 g _ hemp]
      exact hg)
    simpa [attrDefaultAt] using h
  · intro hemp
    have h := parse_attr_default data 5 (fun g hg => by
      simp only [gpsStep]
      rw [optField_empty pyFloat data 5 g _ hemp]
      exact hg)
    simpa [attrDefaultAt] using h
  · intro hemp
    have h := parse_attr_default data 6 (fun g hg => by
      simp only [gpsStep]
      rw [optField_empty pyFloat data 6 g _ hemp]
      exact hg)
    simpa [attrDefaultAt] using h
  · intro hemp
    have h := parse_attr_default data 7 (fun g hg => by
      simp only [gpsStep]
      rw [optField_empty pyFloat data 7 g _ hemp]
      exact hg)
    simpa [attrDefaultAt] using h
  · intro hemp
    have h := parse_attr_default data 8 (fun g hg => by
      simp only [gpsStep]
      rw [optField_empty pyInt data 8 g _ hemp]
      exact hg)
    simpa [attrDefaultAt] using h
  · intro hemp
    have h := parse_attr_default data 9 (fun g hg => by
      simp only [gpsStep]
      rw [optField_empty pyFloat data 10 g _ hemp]
      exact hg)
    simpa [attrDefaultAt] using h
  · intro hemp
    have h := parse_attr_default data 10 (fun g hg => by
      simp only [gpsStep]
      rw [optField_empty pyFloat data 11 g _ hemp]
      exact hg)
    simpa [attrDefaultAt] using h
  · intro hemp
    have h := parse_attr_default data 11 (fun g hg => by
      simp only [gpsStep]
      rw [optField_empty pyFloat data 12 g _ hemp]
      exact hg)
    simpa [attrDefaultAt] using h
  · intro hemp
    have h := parse_attr_default data 12 (fun g hg => by
      simp only [gpsStep]
      rw [optField_empty pyInt data 14 g _ hemp]
      exact hg)
    simpa [attrDefaultAt] using h
  · intro hemp
    have h := parse_attr_default data 13 (fun g hg => by
      simp only [gpsStep]
      rw [optField_empty pyInt data 15 g _ hemp]
      exact hg)
    simpa [attrDefaultAt] using h
  · intro hemp
    have h := parse_attr_default data 14 (fun g hg => by
      simp only [gpsStep]
      rw [optField_empty pyInt data 16 g _ hemp]
      exact hg)
    simpa [attrDefaultAt] using h
  · intro hemp
    have h := parse_attr_default data 15 (fun g hg => by
      simp only [gpsStep]
      rw [optField_empty pyFloat data 17 g _ hemp]
      exact hg)
    simpa [attrDefaultAt] using h
  · intro hemp
    have h := parse_attr_default data 16 (fun g hg => by
      simp only [gpsStep]
      rw [optField_empty pyFloat data 18 g _ hemp]
      exact hg)
    simpa [attrDefaultAt] using h
  · intro hemp
    have h := parse_attr_default data 17 (fun g hg => by
      simp only [gpsStep]
      rw [optField_empty pyFloat data 19 g _ hemp]
      exact hg)
    simpa [attrDefaultAt] using h

/-- C6 witness: the amended theorem applied to two mixed concrete lines:
an empty timestamp next to a populated latitude, and a populated
timestamp next to an empty latitude. -/
theorem c6_empty_fields_witness :
    (gpsParseFields ["1", "1", "", "45.5"]).1.timestamp = TsVal.str "" ∧
    (gpsParseFields ["1", "1", "20240101120000.000", ""]).1.latitude = 0 :=
  ⟨(c6_empty_fields_keep_defaults ["1", "1", "", "45.5"]).2.2.1 (by decide),
   (c6_empty_fields_keep_defaults ["1", "1", "20240101120000.000", ""]).2.2.2.1 (by decide)⟩

/-- C7 (confirmed): any received line containing the token `OK` — checked
before every other classification rule, whatever tags the line also
carries — clears the write lock and sets the last-health timestamp to
`now`, leaving the rest of the state unchanged; a line containing `ERROR`
but not `OK` clears the write lock only, leaving `last_health` and every
other field unchanged. -/
theorem c7_ok_before_error_ack (m : ModemState) (raw : String) (rest : List String)
    (now : ℚ) :
    (pyIn "OK" (stripLine raw) = true →
      process_input_line m raw rest now =
        .cont {m with write_lock := false, last_health := now}) ∧
    (pyIn "ERROR" (stripLine raw) = true → pyIn "OK" (stripLine raw) = false →
      process_input_line m raw rest now = .cont {m with write_lock := false}) := by
  constructor
  · intro h; simp [process_input_line, h]
  · intro he ho; simp [process_input_line, he, ho]

/-- C7 witness: the `OK` rule fires even on a line carrying the
`+HTTPACTION` tag, and a plain `ERROR` line clears only the lock. -/
theorem c7_ok_before_error_witness :
    process_input_line ({write_lock := true} : ModemState) "+HTTPACTION OK\r\n" [] 9 =
      .cont {({write_lock := true} : ModemState) with write_lock := false, last_health := 9} ∧
    process_input_line ({write_lock := true, last_health := 4} : ModemState) "ERROR\r\n" [] 9 =
      .cont {({write_lock := true, last_health := 4} : ModemState) with write_lock := false} :=
  ⟨(c7_ok_before_error_ack ({write_lock := true} : ModemState) "+HTTPACTION OK\r\n" [] 9).1
      (by decide),
   (c7_ok_before_error_ack ({write_lock := true, last_health := 4} : ModemState) "ERROR\r\n" [] 9).2
      (by decide) (by decide)⟩

/-- C8 (counterexample): after `+HTTPACTION: 0,200,17` declared 17 bytes,
the `+HTTPREAD` handler stores the data line exactly as delivered by the
transport — `"17 bytes of data!\r\n"`, 19 characters with its line
terminator — not the bare 17-byte string, contradicting the claim's "the
stored payload is the exact n-byte data string". -/
theorem c8_payload_counterexample :
    process_input_line ({http_current_uuid := some 1, http_result := [(some 1, some ⟨0, 200, 17, none⟩)]} : ModemState)
        "+HTTPREAD: 17\r\n" ["17 bytes of data!\r\n"] 7 =
      .halt ({http_current_uuid := some 1, http_result := [(some 1, some ⟨0, 200, 17, some "17 bytes of data!\r\n"⟩)]} : ModemState) [] ∧
    ("17 bytes of data!\r\n" : String).length ≠ 17 := by
  refine ⟨by decide, by decide⟩

/-- C8 (amended): on a line starting with the `+HTTPREAD` tag the
dispatcher enters the nested read mode: with no further input it spins
waiting (`blocked`); once a data line is available it consumes exactly
that one line, stores it — as delivered, line terminator included — as
the payload of the current token's result, clears the write lock, and
returns. -/
theorem c8_httpread_nested_read (m : ModemState) (raw d : String)
    (rest : List String) (now : ℚ) (l : String) (res : HttpResult)
    (hl : stripLine raw = l)
    (hok : pyIn "OK" l = false) (herr : pyIn "ERROR" l = false)
    (hpwr : pyIn "+CGNSPWR" l = false)
    (hug : pyStartsWith l "+UGNSINF" = false)
    (hact : pyStartsWith l "+HTTPACTION" = false)
    (hpre : pyStartsWith l "+HTTPREAD" = true)
    (hres : rlook m.http_result m.http_current_uuid = some (some res)) :
    process_input_line m raw (d :: rest) now =
      .halt {m with write_lock := false,
                    http_result := rinsert m.http_result m.http_current_uuid
                      (some {res with dat := some d})} rest ∧
    process_input_line m raw [] now = .blocked m := by
  constructor
  · simp [process_input_line, hl, hok, herr, hpwr, hug, hact, hpre, hres]
  · simp [process_input_line, hl, hok, herr, hpwr, hug, hact, hpre]

/-- C8 witness: the amended theorem applied to a 17-byte declared size
with its raw data line. -/
theorem c8_httpread_witness :
    process_input_line ({http_current_uuid := some 2, http_result := [(some 2, some ⟨0, 200, 17, none⟩)]} : ModemState)
        "+HTTPREAD: 17\r\n" ["17 bytes of data!\r\n", "OK\r\n"] 7 =
      .halt {({http_current_uuid := some 2, http_result := [(some 2, some ⟨0, 200, 17, none⟩)]} : ModemState) with
             write_lock := false,
             http_result := rinsert [(some 2, some ⟨0, 200, 17, none⟩)] (some 2) (some ⟨0, 200, 17, some "17 bytes of data!\r\n"⟩)} ["OK\r\n"] :=
  (c8_httpread_nested_read ({http_current_uuid := some 2, http_result := [(some 2, some ⟨0, 200, 17, none⟩)]} : ModemState)
    "+HTTPREAD: 17\r\n" "17 bytes of data!\r\n" ["OK\r\n"] 7 "+HTTPREAD: 17"
    ⟨0, 200, 17, none⟩ (by decide) (by decide) (by decide) (by decide)
    (by decide) (by decide) (by decide) (by decide)).1

/-- C9 (confirmed): an HTTP submission registers the empty pending result
under the fresh token and appends the request to the pending HTTP queue;
the caller's wait loop completes exactly when a result exists for the
token and either the declared size is 0 or the payload has been filled,
and on completion both the result-map entry and the request-cache entry
for the token are removed and the stored result is returned. -/
theorem c9_http_request_lifecycle (m : ModemState) (method : ℤ) (url : String)
    (tok : ℕ) :
    rlook (http_request_submit m method url tok).http_result (some tok) = some none ∧
    (http_request_submit m method url tok).http_queue = m.http_queue ++ [⟨url, method, tok⟩] ∧
    (∀ res : HttpResult, rlook m.http_result (some tok) = some (some res) →
      ((res.data_size = 0 ∨ res.dat ≠ none) →
        http_request_collect m tok = some (res,
          {m with http_result := rremove m.http_result (some tok),
                  http_request_cache := cremove m.http_request_cache tok}) ∧
        rlook (rremove m.http_result (some tok)) (some tok) = none ∧
        clook (cremove m.http_request_cache tok) tok = none) ∧
      (res.data_size ≠ 0 ∧ res.dat = none → http_request_collect m tok = none)) := by
  refine ⟨?_, ?_, ?_⟩
  · simp only [http_request_submit]
    exact rlook_rinsert _ _ _
  · simp only [http_request_submit]
    split
    · exact congrArg (· ++ [⟨url, method, tok⟩]) (network_start_httpSame m).1
    · rfl
  · intro res hres
    constructor
    · intro hdone
      refine ⟨?_, rlook_rremove _ _, clook_cremove _ _⟩
      unfold http_request_collect
      rw [hres]
      have hcond : (res.data_size ≠ 0 ∧ res.dat ≠ none) ∨ res.data_size = 0 := by
        tauto
      simp [hcond]
    · intro hwait
      unfold http_request_collect
      rw [hres]
      have hcond : ¬((res.data_size ≠ 0 ∧ res.dat ≠ none) ∨ res.data_size = 0) := by
        tauto
      simp [hcond]

/-- C9 witness: a concrete submit on the default state followed by a
concrete completed collect. -/
theorem c9_http_request_witness :
    rlook (http_request_submit {} 0 "http://x" 3).http_result (some 3) = some none ∧
    (http_request_submit {} 0 "http://x" 3).http_queue = [] ++ [⟨"http://x", 0, 3⟩] ∧
    http_request_collect ({http_result := [(some 3, some ⟨0, 200, 0, none⟩)], http_request_cache := [(3, ⟨"http://x", 0, 3⟩)]} : ModemState) 3 =
      some (⟨0, 200, 0, none⟩,
        {({http_result := [(some 3, some ⟨0, 200, 0, none⟩)], http_request_cache := [(3, ⟨"http://x", 0, 3⟩)]} : ModemState) with
         http_result := rremove [(some 3, some ⟨0, 200, 0, none⟩)] (some 3),
         http_request_cache := cremove [(3, ⟨"http://x", 0, 3⟩)] 3}) :=
  ⟨(c9_http_request_lifecycle {} 0 "http://x" 3).1,
   (c9_http_request_lifecycle {} 0 "http://x" 3).2.1,
   ((c9_http_request_lifecycle ({http_result := [(some 3, some ⟨0, 200, 0, none⟩)], http_request_cache := [(3, ⟨"http://x", 0, 3⟩)]} : ModemState)
      0 "http://x" 3).2.2 ⟨0, 200, 0, none⟩ (by decide) |>.1 (Or.inl rfl)).1⟩

/-- C10 (counterexample): the malformed line `x` fails at the very first
field, so the constructor returns exactly the all-defaults record (with
the error logged) — contradicting the claim's "the result is not the
all-defaults record". -/
theorem c10_partial_parse_counterexample :
    (gpsdata_init (some "x")).1 = ({} : GPSData) ∧
    (gpsdata_init (some "x")).2 = true := by
  refine ⟨by decide, by decide⟩

/-- C10 (amended): for every malformed positioning line the constructor
returns the record reached just before the failing assignment: the
assignment statements run in source order, and the result is exactly the
output of the longest successful prefix of assignments together with the
`MalformedFixData` flag — every attribute assigned in that prefix keeps
the value the parse gave it, every attribute whose assignment is at or
after the failure point (whatever its position, and whether the failure
is an out-of-range field or a non-numeric one) keeps its default, and
when the failure is at the very first field the result coincides with
the all-defaults record. -/
theorem c10_partial_parse_structure (data : List String)
    (hbad : (gpsParseFields data).2 = true) :
    ∃ (pre suf : List GpsStep) (s : GpsStep) (g : GPSData),
      gpsSteps data = pre ++ s :: suf ∧
      runSteps pre {} = .ok g ∧
      s g = .error g ∧
      gpsParseFields data = (g, true) ∧
      DefaultsFrom pre.length g := by
  have hrun : ∃ gf, runSteps (gpsSteps data) ({} : GPSData) = .error gf := by
    rcases hr : runSteps (gpsSteps data) ({} : GPSData) with gf | gok
    · exact ⟨gf, rfl⟩
    · exfalso
      rw [gpsParseFields_eq_runSteps, hr] at hbad
      simp at hbad
  obtain ⟨gf, hrun⟩ := hrun
  obtain ⟨pre, s, suf, g', hsplit, hpre, hfail⟩ :=
    runSteps_error_split (gpsSteps data) {} gf hrun
  have hmem : s ∈ gpsSteps data := by
    rw [hsplit]
    exact List.mem_append_right _ (List.mem_cons_self _ _)
  have hidx : ∃ i, gpsStep data i = s := by
    rw [gpsSteps] at hmem
    obtain ⟨i, -, hi⟩ := List.mem_map.mp hmem
    exact ⟨i, hi⟩
  obtain ⟨i, hi⟩ := hidx
  have hecho : gf = g' := gpsStep_error_echo data i g' gf (by rw [hi]; exact hfail)
  subst hecho
  have hlen : pre.length + (suf.length + 1) = 18 := by
    have hl := congrArg List.length hsplit
    simp [gpsSteps, List.length_range'] at hl
    omega
  have hpre_eq : pre = (List.range' 0 pre.length).map (gpsStep data) := by
    have hr18 : List.range' 0 18 =
        List.range' 0 pre.length ++ List.range' pre.length (18 - pre.length) := by
      have h := List.range'_append 0 pre.length (18 - pre.length) 1
      rw [show 0 + 1 * pre.length = pre.length by omega,
          show 18 - pre.length + pre.length = 18 by omega] at h
      exact h.symm
    have h2 : pre ++ s :: suf =
        (List.range' 0 pre.length).map (gpsStep data) ++
          (List.range' pre.length (18 - pre.length)).map (gpsStep data) := by
      rw [← List.map_append, ← hr18]
      exact hsplit.symm
    exact (List.append_inj h2 (by simp [List.length_range'])).1
  refine ⟨pre, suf, s, gf, hsplit, hpre, hfail, ?_, ?_⟩
  · rw [gpsParseFields_eq_runSteps, hrun]
  · have hB := runSteps_range'_defaults data pre.length 0 {}
      (fun j _ => attrDefaultAt_default j)
    rw [← hpre_eq, hpre] at hB
    intro j hj
    exact hB j (by omega)

/-- C10 witness: the structure theorem applied to the line `1,x`, whose
second field is non-numeric (a `ValueError` failure at position 1). -/
theorem c10_partial_parse_witness :
    (gpsParseFields ["1", "x"]).2 = true ∧
    (∃ (pre suf : List GpsStep) (s : GpsStep) (g : GPSData),
      gpsSteps ["1", "x"] = pre ++ s :: suf ∧
      runSteps pre {} = .ok g ∧
      s g = .error g ∧
      gpsParseFields ["1", "x"] = (g, true) ∧
      DefaultsFrom pre.length g) :=
  ⟨by decide, c10_partial_parse_structure ["1", "x"] (by decide)⟩

end Sim868
